import Mathlib

/-!
Verification of the kalshi_clear client-side integration layer.

The development shallowly embeds the Python source under src/ into Lean:
Python values that flow through the record normalizers are modelled by the
inductive type PyVal, Python exceptions by PyError, and every fallible
Python callable by a function into Except PyError.  External primitives
(the SDK endpoints, the HTTP transport, the json module, the crypto
signing object, datetime.fromisoformat) are parameters of the embedded
functions, so each theorem quantifies over their behaviour.  Python float
values are modelled by rationals: no claim depends on the value of a
float, only on whether a coercion succeeds.
-/

/-- Model of a Python datetime object; the payload is an opaque token that
identifies the moment, which is all the claims need. -/
structure PyDateTime where
  stamp : String
deriving DecidableEq

/-- Model of the Python values that flow through the normalizers and
services: None, bools, ints, floats (as rationals), str, bytes (their
utf-8 decoded text), datetime objects, lists, dict mappings with string
keys, and attribute-bearing (SDK) objects. -/
inductive PyVal where
  | none : PyVal
  | bool (b : Bool) : PyVal
  | int (n : Int) : PyVal
  | float (q : Rat) : PyVal
  | str (s : String) : PyVal
  | bytes (s : String) : PyVal
  | datetime (d : PyDateTime) : PyVal
  | list (items : List PyVal) : PyVal
  | dict (entries : List (String × PyVal)) : PyVal
  | obj (attrs : List (String × PyVal)) : PyVal

/-- The Python exceptions that appear in the repository. -/
inductive PyError where
  | attributeError (name : String) : PyError
  | typeError (msg : String) : PyError
  | authenticationConfigError : PyError
  | kalshiAPIError (msg : String) : PyError
  | validationError : PyError
  | databaseSaveError : PyError
deriving DecidableEq

/-- Python truthiness of a value, as used by conditions and the or
operator in the source. -/
def pyTruthy : PyVal → Bool
  | .none => false
  | .bool b => b
  | .int n => n != 0
  | .float q => q != 0
  | .str s => !s.isEmpty
  | .bytes s => !s.isEmpty
  | .datetime _ => true
  | .list xs => !xs.isEmpty
  | .dict es => !es.isEmpty
  | .obj _ => true

/-- Python a or b: returns a when a is truthy, else b. -/
def pyOr (a b : PyVal) : PyVal :=
  if pyTruthy a then a else b

/-- Python str() applied to the modelled values.  The exact rendering of
containers is irrelevant to every claim (no claim applies str to a list
or dict); scalars follow Python. -/
def pyStr : PyVal → String
  | .none => "None"
  | .bool b => if b then "True" else "False"
  | .int n => toString n
  | .float q => toString q
  | .str s => s
  | .bytes s => "b" ++ s
  | .datetime d => d.stamp
  | .list _ => "[...]"
  | .dict _ => "\x7b...\x7d"
  | .obj _ => "<object>"

/-- Lookup in an association list of string keys, first match wins, as
Python dict lookup behaves in the model. -/
def assocFind (entries : List (String × PyVal)) (key : String) : Option PyVal :=
  match entries.find? (fun kv => kv.1 == key) with
  | Option.none => Option.none
  | Option.some kv => Option.some kv.2

/-- Embeds _get_value from src/models/event_record.py and
src/models/market_record.py: Mapping inputs are read with .get (default
None), every other input with getattr(source, attribute, None). -/
def _get_value (source : PyVal) (attr : String) : PyVal :=
  match source with
  | .dict entries => (assocFind entries attr).getD PyVal.none
  | .obj attrs => (assocFind attrs attr).getD PyVal.none
  | _ => PyVal.none

/-- Python getattr(source, name) without a default: attribute-bearing
objects yield the attribute or AttributeError; every other modelled
value (in particular any dict) has no such data attribute and raises
AttributeError.  Used by SeriesRecord.from_api which reads item.ticker
directly. -/
def pyGetAttr (source : PyVal) (name : String) : Except PyError PyVal :=
  match source with
  | .obj attrs =>
      match assocFind attrs name with
      | Option.some v => Except.ok v
      | Option.none => Except.error (PyError.attributeError name)
  | _ => Except.error (PyError.attributeError name)

/-- Python getattr(source, name, None): total variant with default None,
as the services use on typed responses. -/
def pyGetAttrD (source : PyVal) (name : String) : PyVal :=
  match source with
  | .obj attrs => (assocFind attrs name).getD PyVal.none
  | _ => PyVal.none

/-- Iterating a Python value, as the record-building list comprehensions
do: lists yield their items, strings their one-character strings, bytes
their byte values, dicts their keys; everything else raises TypeError. -/
def pyIter : PyVal → Except PyError (List PyVal)
  | .list xs => Except.ok xs
  | .str s => Except.ok (s.data.map (fun c => PyVal.str (String.mk [c])))
  | .bytes s => Except.ok (s.data.map (fun c => PyVal.int (Int.ofNat c.toNat)))
  | .dict es => Except.ok (es.map (fun kv => PyVal.str kv.1))
  | _ => Except.error (PyError.typeError "object is not iterable")

/-- Parse an optional sign followed by one or more digits; supports the
int("...") model. -/
def parseSignedDigits (cs : List Char) : Option Int :=
  let (sign, rest) :=
    match cs with
    | '-' :: r => (true, r)
    | '+' :: r => (false, r)
    | r => (false, r)
  if rest.isEmpty || !rest.all Char.isDigit then Option.none
  else
    let n : Nat := rest.foldl (fun acc c => acc * 10 + (c.toNat - '0'.toNat)) 0
    Option.some (if sign then -(n : Int) else (n : Int))

/-- Model of Python int(string): surrounding whitespace is allowed, then
an optional sign and digits; anything else raises ValueError (observed
here as a parse failure). -/
def pyIntOfString (s : String) : Option Int :=
  parseSignedDigits (s.data.dropWhile (· == ' ') |>.reverse.dropWhile (· == ' ') |>.reverse)

/-- Model of Python float(string) for decimal literals: optional sign,
digits, an optional fractional part.  Exotic float syntax is out of the
claims' reach; any string this model rejects is treated as a ValueError,
which the callers of the coercion swallow into None either way. -/
def pyFloatOfString (s : String) : Option Rat :=
  let cs := s.data.dropWhile (· == ' ') |>.reverse.dropWhile (· == ' ') |>.reverse
  let (neg, rest) :=
    match cs with
    | '-' :: r => (true, r)
    | '+' :: r => (false, r)
    | r => (false, r)
  let intPart := rest.takeWhile Char.isDigit
  let rest2 := rest.drop intPart.length
  let body : Option Rat :=
    match rest2 with
    | [] =>
        if intPart.isEmpty then Option.none
        else Option.some ((intPart.foldl (fun acc c => acc * 10 + (c.toNat - '0'.toNat)) 0 : Nat) : Rat)
    | '.' :: fracPart =>
        if !fracPart.all Char.isDigit || (intPart.isEmpty && fracPart.isEmpty) then Option.none
        else
          let num : Nat := (intPart ++ fracPart).foldl (fun acc c => acc * 10 + (c.toNat - '0'.toNat)) 0
          Option.some ((num : Rat) / ((10 : Rat) ^ fracPart.length))
    | _ => Option.none
  match body with
  | Option.none => Option.none
  | Option.some q => Option.some (if neg then -q else q)

/-- Embeds _as_float from src/models/market_record.py: float(value) with
TypeError and ValueError swallowed into None. -/
def _as_float (value : PyVal) : Option Rat :=
  match value with
  | .none => Option.none
  | .int n => Option.some (n : Rat)
  | .float q => Option.some q
  | .bool b => Option.some (if b then 1 else 0)
  | .str s => pyFloatOfString s
  | _ => Option.none

/-- Embeds _as_int from src/models/market_record.py: int(value) with
TypeError and ValueError swallowed into None.  int of a float truncates
toward zero. -/
def _as_int (value : PyVal) : Option Int :=
  match value with
  | .none => Option.none
  | .int n => Option.some n
  | .float q => Option.some (q.num.tdiv (q.den : Int))
  | .bool b => Option.some (if b then 1 else 0)
  | .str s => pyIntOfString s
  | _ => Option.none

/-- Embeds _parse_datetime from src/models/market_record.py.  The
external stdlib parser datetime.fromisoformat is a parameter fromiso;
it returns none exactly when the real parser raises ValueError, which
the source catches and converts to None. -/
def _parse_datetime (fromiso : String → Option PyDateTime) (value : PyVal) :
    Option PyDateTime :=
  match value with
  | .none => Option.none
  | .datetime d => Option.some d
  | .str s =>
      let normalized := if s.endsWith "Z" then s.dropRight 1 ++ "+00:00" else s
      fromiso normalized
  | _ => Option.none

/-- Statement of the datetime coercion taken from the spec wording: the
value itself if it is already a datetime; for a string, the parse of the
string with a trailing Z replaced by the offset +00:00 (null when the
parse fails); null for everything else.  Compared against the source
translation _parse_datetime. -/
def specParseDatetime (fromiso : String → Option PyDateTime) (value : PyVal) :
    Option PyDateTime :=
  match value with
  | .datetime d => Option.some d
  | .str s =>
      fromiso (if s.endsWith "Z" then s.dropRight 1 ++ "+00:00" else s)
  | _ => Option.none

/-- Embeds the EventRecord dataclass of src/models/event_record.py.  The
field annotations are not enforced at runtime, so every field that
from_api fills with a raw _get_value result is modelled as PyVal;
event_ticker goes through str(... or "") and is a genuine string. -/
structure EventRecord where
  event_ticker : String
  series_ticker : PyVal
  sub_title : PyVal
  title : PyVal
  status : PyVal
  markets : PyVal
  add_time : Option PyDateTime := Option.none
  update_time : Option PyDateTime := Option.none

/-- Embeds EventRecord.from_api.  Every operation in the body is total
(_get_value never raises, str never raises on these values), so the
computation always returns ok; it is typed in Except because Python
constructors can in general raise. -/
def EventRecord.from_api (item : PyVal) : Except PyError EventRecord :=
  Except.ok
    { event_ticker := pyStr (pyOr (_get_value item "event_ticker") (PyVal.str ""))
      series_ticker := _get_value item "series_ticker"
      sub_title := _get_value item "sub_title"
      title := _get_value item "title"
      status := _get_value item "status"
      markets := _get_value item "markets" }

/-- Embeds the MarketRecord dataclass of src/models/market_record.py.
Coerced fields carry their coerced Lean type; fields assigned a raw
_get_value result are PyVal. -/
structure MarketRecord where
  ticker : String
  series_ticker : PyVal
  event_ticker : PyVal
  title : PyVal
  sub_title : PyVal
  status : PyVal
  open_time : Option PyDateTime
  close_time : Option PyDateTime
  expiration_time : Option PyDateTime
  yes_bid : Option Rat
  yes_ask : Option Rat
  no_bid : Option Rat
  no_ask : Option Rat
  last_price : Option Rat
  volume : Option Int
  volume_24h : Option Int
  result : PyVal
  can_close_early : PyVal
  cap_count : Option Int
  add_time : Option PyDateTime := Option.none
  update_time : Option PyDateTime := Option.none

/-- Embeds MarketRecord.from_api; fromiso is the external ISO-8601
parser used by the datetime coercion.  As for events, every step is
total, hence the ok result. -/
def MarketRecord.from_api (fromiso : String → Option PyDateTime) (item : PyVal) :
    Except PyError MarketRecord :=
  Except.ok
    { ticker := pyStr (pyOr (_get_value item "ticker") (PyVal.str ""))
      series_ticker := _get_value item "series_ticker"
      event_ticker := _get_value item "event_ticker"
      title := _get_value item "title"
      sub_title := pyOr (_get_value item "subtitle") (_get_value item "sub_title")
      status := _get_value item "status"
      open_time := _parse_datetime fromiso (_get_value item "open_time")
      close_time := _parse_datetime fromiso (_get_value item "close_time")
      expiration_time := _parse_datetime fromiso (_get_value item "expiration_time")
      yes_bid := _as_float (_get_value item "yes_bid")
      yes_ask := _as_float (_get_value item "yes_ask")
      no_bid := _as_float (_get_value item "no_bid")
      no_ask := _as_float (_get_value item "no_ask")
      last_price := _as_float (_get_value item "last_price")
      volume := _as_int (_get_value item "volume")
      volume_24h := _as_int (_get_value item "volume_24h")
      result := _get_value item "result"
      can_close_early := _get_value item "can_close_early"
      cap_count := _as_int (_get_value item "cap_count") }

/-- Embeds the SeriesRecord dataclass of src/models/series_record.py.
Its from_api assigns raw attribute values, so the fields are PyVal. -/
structure SeriesRecord where
  ticker : PyVal
  title : PyVal
  category : PyVal
  status : PyVal
  add_time : Option PyDateTime := Option.none
  update_time : Option PyDateTime := Option.none

/-- Embeds SeriesRecord.from_api.  Unlike the other two normalizers it
reads item.ticker, item.title, item.category and item.status by direct
attribute access with no default, so an input without those attributes
(any mapping in particular) raises AttributeError. -/
def SeriesRecord.from_api (item : PyVal) : Except PyError SeriesRecord := do
  let ticker ← pyGetAttr item "ticker"
  let title ← pyGetAttr item "title"
  let category ← pyGetAttr item "category"
  let status ← pyGetAttr item "status"
  Except.ok
    { ticker := ticker
      title := title
      category := pyOr category (PyVal.str "")
      status := status }

/-- Record produced by EventRecord.from_api on an empty mapping: every
absent field is None and the key field is the empty string. -/
def emptyEventRecord : EventRecord :=
  { event_ticker := ""
    series_ticker := PyVal.none
    sub_title := PyVal.none
    title := PyVal.none
    status := PyVal.none
    markets := PyVal.none }

/-- Record produced by MarketRecord.from_api on an empty mapping. -/
def emptyMarketRecord : MarketRecord :=
  { ticker := ""
    series_ticker := PyVal.none
    event_ticker := PyVal.none
    title := PyVal.none
    sub_title := PyVal.none
    status := PyVal.none
    open_time := Option.none
    close_time := Option.none
    expiration_time := Option.none
    yes_bid := Option.none
    yes_ask := Option.none
    no_bid := Option.none
    no_ask := Option.none
    last_price := Option.none
    volume := Option.none
    volume_24h := Option.none
    result := PyVal.none
    can_close_early := PyVal.none
    cap_count := Option.none }

/-- Scan for the first occurrence of the scheme separator found by
urlparse; yields what follows it.  Supports the model of
urllib.parse.urlparse used by _build_auth_headers. -/
def dropThroughSchemeSep : List Char → Option (List Char)
  | [] => Option.none
  | c :: rest =>
      if c == ':' && rest.take 2 == ['/', '/'] then Option.some (rest.drop 2)
      else dropThroughSchemeSep rest

/-- Model of urlparse(url).path for the URL shapes the client produces:
when a scheme separator is present, skip the netloc (everything up to
the first slash, question mark or hash) and keep the path up to the
query or fragment; without a separator the whole prefix up to the query
or fragment is the path. -/
def urlparsePath (url : String) : String :=
  match dropThroughSchemeSep url.data with
  | Option.some rest =>
      String.mk ((rest.dropWhile (fun c => !(c == '/' || c == '?' || c == '#'))).takeWhile
        (fun c => !(c == '?' || c == '#')))
  | Option.none => String.mk (url.data.takeWhile (fun c => !(c == '?' || c == '#')))

/-- Truthiness of an optional Python string: None and the empty string
are falsy. -/
def optStrTruthy : Option String → Bool
  | Option.none => false
  | Option.some s => !s.isEmpty

/-- Embeds KalshiAPIClient._build_auth_headers from src/kalshi_client.py.
The loaded private key is modelled by its signing function (the external
RSA object), base64.b64encode by the parameter b64, and the millisecond
clock reading int(time.time() * 1000) by the parameter nowMs.  The
message signed is the timestamp string, the method and the parsed path
with any query stripped, concatenated in that order; the three returned
headers carry the key id, the encoded signature and the timestamp. -/
def _build_auth_headers (apiKeyId : Option String)
    (privateKey : Option (String → List Nat)) (b64 : List Nat → String)
    (nowMs : Nat) (method url : String) : Except PyError (List (String × String)) :=
  match apiKeyId, privateKey with
  | Option.some keyId, Option.some sign =>
      if keyId.isEmpty then Except.error PyError.authenticationConfigError
      else
        let timestamp_str := toString nowMs
        let path_no_query := String.mk ((urlparsePath url).data.takeWhile (fun c => !(c == '?')))
        let message := timestamp_str ++ method ++ path_no_query
        Except.ok [("KALSHI-ACCESS-KEY", keyId),
          ("KALSHI-ACCESS-SIGNATURE", b64 (sign message)),
          ("KALSHI-ACCESS-TIMESTAMP", timestamp_str)]
  | _, _ => Except.error PyError.authenticationConfigError

/-- Message the spec says is signed: the millisecond timestamp string,
then the upper-cased method, then the URL path with query string and
host excluded. -/
def specSignMessage (nowMs : Nat) (method path : String) : String :=
  toString nowMs ++ method.toUpper ++ path

/-- Outcome of invoking an SDK endpoint: a response object, an
ApiException from the remote API, or any other exception raised while
executing the call (for the typed operations this includes the pydantic
ValidationError raised during response deserialization). -/
inductive EndpointOutcome where
  | ok (response : PyVal)
  | apiException (reason : String)
  | raise (e : PyError)

/-- Model of the external kalshi_python.KalshiClient SDK surface: the
names of the operations it exposes and, for each operation and
parameter set, the outcome of the network invocation.  An entry in the
invocation trace is recorded exactly when the endpoint is invoked. -/
structure KalshiClientModel where
  opNames : List String
  endpoint : String → List (String × PyVal) → EndpointOutcome

/-- Embeds KalshiAPIClient.call together with _resolve_operation and
_execute from src/kalshi_client.py, returning the result paired with
the list of endpoint invocations performed.  Order follows the source:
the operation is resolved first (an unknown name raises
AttributeError), then the authentication precondition is checked, and
only then is the endpoint invoked; an ApiException becomes a
KalshiAPIError, any other exception propagates unwrapped. -/
def KalshiAPIClient.call (m : KalshiClientModel) (authEnabled : Bool)
    (operation : String) (authenticated : Bool) (params : List (String × PyVal)) :
    Except PyError PyVal × List (String × List (String × PyVal)) :=
  if m.opNames.contains operation then
    if authenticated && !authEnabled then
      (Except.error PyError.authenticationConfigError, [])
    else
      match m.endpoint operation params with
      | .ok r => (Except.ok r, [(operation, params)])
      | .apiException reason =>
          (Except.error (PyError.kalshiAPIError reason), [(operation, params)])
      | .raise e => (Except.error e, [(operation, params)])
  else (Except.error (PyError.attributeError operation), [])

/-- Authentication-relevant state of a constructed KalshiAPIClient. -/
structure KalshiClientState where
  apiKeyId : Option String
  authEnabled : Bool
  privateKey : Option (String → List Nat)

/-- Embeds the authentication part of KalshiAPIClient.__init__ from
src/kalshi_client.py: keyMaterial is the result of
settings.read_private_key() and loadPem the external PEM loader, which
may raise.  _auth_enabled starts False and becomes True exactly inside
the branch guarded by the truthiness of both the api key id and the
key material; only in that branch is the private key loaded. -/
def KalshiAPIClient.mk_client (apiKeyId : Option String) (keyMaterial : Option String)
    (loadPem : String → Except PyError (String → List Nat)) :
    Except PyError KalshiClientState :=
  if optStrTruthy apiKeyId && optStrTruthy keyMaterial then
    match loadPem (keyMaterial.getD "") with
    | Except.error e => Except.error e
    | Except.ok k =>
        Except.ok { apiKeyId := apiKeyId, authEnabled := true, privateKey := Option.some k }
  else Except.ok { apiKeyId := apiKeyId, authEnabled := false, privateKey := Option.none }

/-- Strip every occurrence of a character from the end of a string, as
Python str.rstrip of a single character does. -/
def dropTrailing (c : Char) (s : String) : String :=
  String.mk ((s.data.reverse.dropWhile (· == c)).reverse)

/-- Strip every occurrence of a character from the start of a string,
as Python str.lstrip of a single character does. -/
def dropLeading (c : Char) (s : String) : String :=
  String.mk (s.data.dropWhile (· == c))

/-- Embeds KalshiAPIClient._prepare_url: absolute URLs pass through,
relative paths are joined to the configured host. -/
def prepare_url (host url : String) : String :=
  if url.toLower.startsWith "http://" || url.toLower.startsWith "https://" then url
  else dropTrailing '/' host ++ "/" ++ dropLeading '/' url

/-- Outcome of the external requests transport: a response with its
HTTP status, or a RequestException. -/
inductive TransportOutcome where
  | response (status : Nat) (body : PyVal)
  | requestException (msg : String)

/-- Python dict.update semantics on header mappings: existing keys keep
their position but take the new value, unseen keys are appended. -/
def dictUpdate (base extra : List (String × String)) : List (String × String) :=
  base.map (fun kv =>
    match extra.find? (fun kv2 => kv2.1 == kv.1) with
    | Option.some kv2 => (kv.1, kv2.2)
    | Option.none => kv) ++
  extra.filter (fun kv2 => !(base.any (fun kv => kv.1 == kv2.1)))

/-- Embeds KalshiAPIClient.http_request from src/kalshi_client.py,
returning the result paired with the list of transport invocations
(method, url, headers) performed.  The URL is made absolute, the method
upper-cased, then for an authenticated request the auth precondition is
checked before any transport activity and the three auth headers are
merged in; a transport error or a status of 400 or above becomes a
KalshiAPIError. -/
def http_request
    (transport : String → String → List (String × String) → TransportOutcome)
    (authEnabled : Bool) (apiKeyId : Option String)
    (privateKey : Option (String → List Nat)) (b64 : List Nat → String)
    (host : String) (nowMs : Nat) (method url : String) (authenticated : Bool)
    (headers : List (String × String)) :
    Except PyError (Nat × PyVal) × List (String × String × List (String × String)) :=
  let prepared_url := prepare_url host url
  let method_upper := method.toUpper
  if authenticated && !authEnabled then
    (Except.error PyError.authenticationConfigError, [])
  else
    let headersE :=
      if authenticated then
        (_build_auth_headers apiKeyId privateKey b64 nowMs method_upper prepared_url).map
          (fun auth => dictUpdate headers auth)
      else Except.ok headers
    match headersE with
    | Except.error e => (Except.error e, [])
    | Except.ok hs =>
        match transport method_upper prepared_url hs with
        | .response status body =>
            if status ≥ 400 then
              (Except.error (PyError.kalshiAPIError ("HTTP status " ++ toString status)),
                [(method_upper, prepared_url, hs)])
            else (Except.ok (status, body), [(method_upper, prepared_url, hs)])
        | .requestException msg =>
            (Except.error (PyError.kalshiAPIError msg), [(method_upper, prepared_url, hs)])

/-- The operations the services use, as a concrete SDK surface for
counterexamples and witnesses; the endpoint function is immaterial. -/
def standardClientModel : KalshiClientModel :=
  { opNames := ["get_series", "get_events", "get_markets", "get_exchange_status",
      "get_events_without_preload_content", "get_markets_without_preload_content"]
    endpoint := fun _ _ => EndpointOutcome.ok PyVal.none }

/-- The authentication state a construction with full credentials and a
successful PEM load produces; used by the C9 witness. -/
def c9WitnessState : KalshiClientState :=
  { apiKeyId := Option.some "key-123"
    authEnabled := true
    privateKey := Option.some (fun s => [s.length]) }

/-- Whether a value is the Python None; used for is-not-None filter
checks. -/
def isNone : PyVal → Bool
  | .none => true
  | _ => false

/-- Whether a value is a dict, as isinstance(payload, dict) checks. -/
def isDict : PyVal → Bool
  | .dict _ => true
  | _ => false

/-- Python payload.get(key, default) on a value known to be a dict;
yields the default on anything else (callers guard with isDict as the
source does). -/
def dictGet (v : PyVal) (key : String) (dflt : PyVal) : PyVal :=
  match v with
  | .dict es => (assocFind es key).getD dflt
  | _ => dflt

/-- Optional filters accepted by EventsService.list_event_records;
Python absent keyword arguments surface as None. -/
structure EventFilters where
  limit : PyVal := PyVal.none
  cursor : PyVal := PyVal.none
  with_nested_markets : PyVal := PyVal.none
  with_milestones : PyVal := PyVal.none
  status : PyVal := PyVal.none
  series_ticker : PyVal := PyVal.none
  min_close_ts : PyVal := PyVal.none

/-- Embeds EventsService._build_params from
src/services/events_service.py: limit, cursor, with_nested_markets,
with_milestones and min_close_ts are forwarded when not None, status
and series_ticker when truthy, in source order. -/
def EventsService.build_params (f : EventFilters) : List (String × PyVal) :=
  (if isNone f.limit then [] else [("limit", f.limit)]) ++
  (if isNone f.cursor then [] else [("cursor", f.cursor)]) ++
  (if isNone f.with_nested_markets then [] else [("with_nested_markets", f.with_nested_markets)]) ++
  (if isNone f.with_milestones then [] else [("with_milestones", f.with_milestones)]) ++
  (if pyTruthy f.status then [("status", f.status)] else []) ++
  (if pyTruthy f.series_ticker then [("series_ticker", f.series_ticker)] else []) ++
  (if isNone f.min_close_ts then [] else [("min_close_ts", f.min_close_ts)])

/-- Optional filters accepted by MarketsService.list_market_records. -/
structure MarketFilters where
  limit : PyVal := PyVal.none
  cursor : PyVal := PyVal.none
  event_ticker : PyVal := PyVal.none
  series_ticker : PyVal := PyVal.none
  max_close_ts : PyVal := PyVal.none
  min_close_ts : PyVal := PyVal.none
  status : PyVal := PyVal.none
  tickers : PyVal := PyVal.none

/-- Embeds MarketsService._build_params from
src/services/markets_service.py. -/
def MarketsService.build_params (g : MarketFilters) : List (String × PyVal) :=
  (if isNone g.limit then [] else [("limit", g.limit)]) ++
  (if isNone g.cursor then [] else [("cursor", g.cursor)]) ++
  (if pyTruthy g.event_ticker then [("event_ticker", g.event_ticker)] else []) ++
  (if pyTruthy g.series_ticker then [("series_ticker", g.series_ticker)] else []) ++
  (if isNone g.max_close_ts then [] else [("max_close_ts", g.max_close_ts)]) ++
  (if isNone g.min_close_ts then [] else [("min_close_ts", g.min_close_ts)]) ++
  (if pyTruthy g.status then [("status", g.status)] else []) ++
  (if pyTruthy g.tickers then [("tickers", g.tickers)] else [])

/-- Text decoded from a raw (without_preload_content) response: bytes
are utf-8 decoded, anything else goes through str(raw or ""). -/
def rawResponseText (resp : PyVal) : String :=
  match pyGetAttrD resp "data" with
  | PyVal.bytes s => s
  | v => pyStr (pyOr v (PyVal.str ""))

/-- Embeds EventsService._fetch_raw_events: call the raw operation,
decode the payload as JSON via the external json module (the jsonLoads
parameter; a None result models json.JSONDecodeError), and fall back to
an empty dict when decoding fails. -/
def EventsService.fetch_raw (m : KalshiClientModel) (authEnabled : Bool)
    (jsonLoads : String → Option PyVal) (params : List (String × PyVal)) :
    Except PyError PyVal × List (String × List (String × PyVal)) :=
  match KalshiAPIClient.call m authEnabled "get_events_without_preload_content" true params with
  | (Except.ok resp, t) =>
      match jsonLoads (rawResponseText resp) with
      | Option.some payload => (Except.ok payload, t)
      | Option.none => (Except.ok (PyVal.dict []), t)
  | (Except.error e, t) => (Except.error e, t)

/-- Embeds MarketsService._fetch_raw_markets, identical to the events
variant up to the operation name. -/
def MarketsService.fetch_raw (m : KalshiClientModel) (authEnabled : Bool)
    (jsonLoads : String → Option PyVal) (params : List (String × PyVal)) :
    Except PyError PyVal × List (String × List (String × PyVal)) :=
  match KalshiAPIClient.call m authEnabled "get_markets_without_preload_content" true params with
  | (Except.ok resp, t) =>
      match jsonLoads (rawResponseText resp) with
      | Option.some payload => (Except.ok payload, t)
      | Option.none => (Except.ok (PyVal.dict []), t)
  | (Except.error e, t) => (Except.error e, t)

/-- The record-building tail of EventsService.list_event_records: the
comprehension over the events value followed by the triple result. -/
def eventRecordsResult (events milestones cursor : PyVal) :
    Except PyError (List EventRecord × PyVal × PyVal) :=
  match pyIter events with
  | Except.error e => Except.error e
  | Except.ok xs =>
      match xs.mapM EventRecord.from_api with
      | Except.error e => Except.error e
      | Except.ok rs => Except.ok (rs, milestones, cursor)

/-- The record-building tail of MarketsService.list_market_records. -/
def marketRecordsResult (fromiso : String → Option PyDateTime)
    (markets cursor : PyVal) : Except PyError (List MarketRecord × PyVal) :=
  match pyIter markets with
  | Except.error e => Except.error e
  | Except.ok xs =>
      match xs.mapM (MarketRecord.from_api fromiso) with
      | Except.error e => Except.error e
      | Except.ok rs => Except.ok (rs, cursor)

/-- Embeds EventsService.list_event_records from
src/services/events_service.py: build the filter parameters once, try
the typed operation, and on a ValidationError fall back to the raw
fetch with the same parameters, extracting events, milestones and
cursor by key from the decoded payload (with empty-list and None
defaults). -/
def EventsService.list_event_records (m : KalshiClientModel) (authEnabled : Bool)
    (jsonLoads : String → Option PyVal) (f : EventFilters) :
    Except PyError (List EventRecord × PyVal × PyVal) ×
      List (String × List (String × PyVal)) :=
  let params := EventsService.build_params f
  match KalshiAPIClient.call m authEnabled "get_events" true params with
  | (Except.ok resp, t) =>
      let events := pyOr (pyGetAttrD resp "events") (PyVal.list [])
      let milestones := pyOr (pyGetAttrD resp "milestones") (PyVal.list [])
      let cursor := pyGetAttrD resp "cursor"
      (eventRecordsResult events milestones cursor, t)
  | (Except.error e, t) =>
      if e = PyError.validationError then
        match EventsService.fetch_raw m authEnabled jsonLoads params with
        | (Except.ok payload, t2) =>
            let events := if isDict payload then dictGet payload "events" (PyVal.list []) else PyVal.list []
            let milestones := if isDict payload then dictGet payload "milestones" (PyVal.list []) else PyVal.list []
            let cursor := if isDict payload then dictGet payload "cursor" PyVal.none else PyVal.none
            (eventRecordsResult events milestones cursor, t ++ t2)
        | (Except.error e2, t2) => (Except.error e2, t ++ t2)
      else (Except.error e, t)

/-- Embeds MarketsService.list_market_records from
src/services/markets_service.py. -/
def MarketsService.list_market_records (fromiso : String → Option PyDateTime)
    (m : KalshiClientModel) (authEnabled : Bool)
    (jsonLoads : String → Option PyVal) (g : MarketFilters) :
    Except PyError (List MarketRecord × PyVal) ×
      List (String × List (String × PyVal)) :=
  let params := MarketsService.build_params g
  match KalshiAPIClient.call m authEnabled "get_markets" true params with
  | (Except.ok resp, t) =>
      let markets := pyOr (pyGetAttrD resp "markets") (PyVal.list [])
      let cursor := pyGetAttrD resp "cursor"
      (marketRecordsResult fromiso markets cursor, t)
  | (Except.error e, t) =>
      if e = PyError.validationError then
        match MarketsService.fetch_raw m authEnabled jsonLoads params with
        | (Except.ok payload, t2) =>
            let markets := if isDict payload then dictGet payload "markets" (PyVal.list []) else PyVal.list []
            let cursor := if isDict payload then dictGet payload "cursor" PyVal.none else PyVal.none
            (marketRecordsResult fromiso markets cursor, t ++ t2)
        | (Except.error e2, t2) => (Except.error e2, t ++ t2)
      else (Except.error e, t)

/-- Value the events fallback path produces as a function of the raw
endpoint outcome; names the right-hand side of the C5 theorem. -/
def EventsService.fallback_value (m : KalshiClientModel)
    (jsonLoads : String → Option PyVal) (params : List (String × PyVal)) :
    Except PyError (List EventRecord × PyVal × PyVal) :=
  match m.endpoint "get_events_without_preload_content" params with
  | EndpointOutcome.ok resp =>
      let payload := (jsonLoads (rawResponseText resp)).getD (PyVal.dict [])
      let events := if isDict payload then dictGet payload "events" (PyVal.list []) else PyVal.list []
      let milestones := if isDict payload then dictGet payload "milestones" (PyVal.list []) else PyVal.list []
      let cursor := if isDict payload then dictGet payload "cursor" PyVal.none else PyVal.none
      eventRecordsResult events milestones cursor
  | EndpointOutcome.apiException reason => Except.error (PyError.kalshiAPIError reason)
  | EndpointOutcome.raise e => Except.error e

/-- Value the markets fallback path produces as a function of the raw
endpoint outcome. -/
def MarketsService.fallback_value (fromiso : String → Option PyDateTime)
    (m : KalshiClientModel) (jsonLoads : String → Option PyVal)
    (params : List (String × PyVal)) :
    Except PyError (List MarketRecord × PyVal) :=
  match m.endpoint "get_markets_without_preload_content" params with
  | EndpointOutcome.ok resp =>
      let payload := (jsonLoads (rawResponseText resp)).getD (PyVal.dict [])
      let markets := if isDict payload then dictGet payload "markets" (PyVal.list []) else PyVal.list []
      let cursor := if isDict payload then dictGet payload "cursor" PyVal.none else PyVal.none
      marketRecordsResult fromiso markets cursor
  | EndpointOutcome.apiException reason => Except.error (PyError.kalshiAPIError reason)
  | EndpointOutcome.raise e => Except.error e

/-- Concrete SDK surface for the C5 witness: both typed operations
raise the schema-validation error, both raw variants return a payload
whose text any decoder rejects. -/
def c5ClientModel : KalshiClientModel :=
  { opNames := ["get_series", "get_events", "get_markets", "get_exchange_status",
      "get_events_without_preload_content", "get_markets_without_preload_content"]
    endpoint := fun op _ =>
      if op = "get_events" || op = "get_markets" then
        EndpointOutcome.raise PyError.validationError
      else EndpointOutcome.ok (PyVal.obj [("data", PyVal.bytes "not json")]) }

/-- Inject an optional coerced value back into a SQL parameter slot. -/
def optPy {α : Type} (f : α → PyVal) : Option α → PyVal
  | Option.none => PyVal.none
  | Option.some a => f a

/-- Observable storage activity of a repository call: a batched
executemany of one statement over all rows, and the commit. -/
inductive StorageOp where
  | executemany (stmt : String) (rows : List (List PyVal))
  | commit

/-- Embeds BaseSQLRepository.save_many from
src/repositories/base_repository.py: empty input short-circuits to 0
with no storage activity; otherwise all rows go out in one executemany
of the insert statement followed by the commit, the row count is
returned, and a driver failure (the writeOk parameter models the
external pyodbc outcome) surfaces as DatabaseSaveError. -/
def BaseSQLRepository.save_many (stmt : String) (writeOk : Bool)
    (rows : List (List PyVal)) : Except PyError Nat × List StorageOp :=
  if rows.isEmpty then (Except.ok 0, [])
  else if writeOk then
    (Except.ok rows.length, [StorageOp.executemany stmt rows, StorageOp.commit])
  else (Except.error PyError.databaseSaveError, [StorageOp.executemany stmt rows])

/-- Every method and data attribute the four repository classes of
src/repositories define (base class included); the save methods invoke
self._executemany, which is not among them. -/
def repositoryDefinedMethods : List String :=
  ["__init__", "save_many", "_connect", "insert_statement",
   "save_series", "save_events", "save_markets", "_build_row",
   "table_name", "settings", "logger"]

/-- Embeds SeriesRepository._build_row: the record fields in column
order with add_time and update_time backfilled with the current
timestamp when absent. -/
def SeriesRepository.build_row (now : PyDateTime) (r : SeriesRecord) : List PyVal :=
  [r.ticker, r.title, r.category, r.status,
   PyVal.datetime (r.add_time.getD now), PyVal.datetime (r.update_time.getD now)]

/-- Embeds SeriesRepository.insert_statement. -/
def SeriesRepository.insert_statement (table_name : String) : String :=
  "MERGE " ++ table_name ++ " AS target " ++
  "USING (VALUES (?, ?, ?, ?, ?, ?)) AS source " ++
  "(ticker, title, category, status, add_time, update_time) " ++
  "ON target.ticker = source.ticker " ++
  "WHEN MATCHED THEN UPDATE SET " ++
  "title = source.title, " ++
  "category = source.category, " ++
  "status = source.status, " ++
  "UpdateTime = source.update_time " ++
  "WHEN NOT MATCHED THEN INSERT " ++
  "(ticker, title, category, status, AddTime, UpdateTime) " ++
  "VALUES (source.ticker, source.title, source.category, source.status, source.add_time, source.update_time);"

/-- Embeds SeriesRepository.save_series from
src/repositories/series_repository.py.  The body builds the rows and
then evaluates self._executemany — an attribute no class in the
repository defines (the base class defines save_many instead), so the
lookup raises AttributeError before any storage activity, for every
input, the empty list included: unlike the other repositories there is
no early return on empty input. -/
def SeriesRepository.save_series (now : PyDateTime) (records : List SeriesRecord) :
    Except PyError Nat × List StorageOp :=
  let _rows := records.map (SeriesRepository.build_row now)
  (Except.error (PyError.attributeError "_executemany"), [])

/-- Embeds EventRepository._build_row. -/
def EventRepository.build_row (now : PyDateTime) (r : EventRecord) : List PyVal :=
  [PyVal.str r.event_ticker, r.series_ticker, r.title, r.sub_title,
   PyVal.datetime (r.add_time.getD now), PyVal.datetime (r.update_time.getD now)]

/-- Embeds EventRepository.insert_statement. -/
def EventRepository.insert_statement (table_name : String) : String :=
  "MERGE " ++ table_name ++ " AS target " ++
  "USING (VALUES (?, ?, ?, ?, ?, ?)) AS source " ++
  "(event_ticker, series_ticker, title, sub_title, add_time, update_time) " ++
  "ON target.event_ticker = source.event_ticker " ++
  "WHEN MATCHED THEN UPDATE SET " ++
  "title = source.title, " ++
  "sub_title = source.sub_title, " ++
  "series_ticker = source.series_ticker, " ++
  "UpdateTime = source.update_time " ++
  "WHEN NOT MATCHED THEN INSERT " ++
  "(event_ticker, series_ticker, title, sub_title, AddTime, UpdateTime) " ++
  "VALUES (source.event_ticker, source.series_ticker, source.title, source.sub_title, source.add_time, source.update_time);"

/-- Embeds EventRepository.save_events: empty input returns 0 before
the method lookup; any non-empty input reaches self._executemany and
raises AttributeError. -/
def EventRepository.save_events (now : PyDateTime) (records : List EventRecord) :
    Except PyError Nat × List StorageOp :=
  let rows := records.map (EventRepository.build_row now)
  if rows.isEmpty then (Except.ok 0, [])
  else (Except.error (PyError.attributeError "_executemany"), [])

/-- Embeds MarketRepository._build_row. -/
def MarketRepository.build_row (now : PyDateTime) (r : MarketRecord) : List PyVal :=
  [PyVal.str r.ticker, r.event_ticker, r.series_ticker, r.title, r.sub_title,
   r.status,
   optPy PyVal.datetime r.open_time, optPy PyVal.datetime r.close_time,
   optPy PyVal.datetime r.expiration_time,
   optPy PyVal.float r.yes_bid, optPy PyVal.float r.yes_ask,
   optPy PyVal.float r.no_bid, optPy PyVal.float r.no_ask,
   optPy PyVal.float r.last_price,
   optPy PyVal.int r.volume, optPy PyVal.int r.volume_24h,
   r.result, r.can_close_early, optPy PyVal.int r.cap_count,
   PyVal.datetime (r.add_time.getD now), PyVal.datetime (r.update_time.getD now)]

/-- Embeds MarketRepository.insert_statement. -/
def MarketRepository.insert_statement (table_name : String) : String :=
  "MERGE " ++ table_name ++ " AS target " ++
  "USING (VALUES (?, ?, ?, ?, ?, ?, ?, ?, ?, ?, ?, ?, ?, ?, ?, ?, ?, ?, ?, ?, ?)) AS source " ++
  "(ticker, event_ticker, series_ticker, title, sub_title, status, open_time, close_time, expiration_time, yes_bid, yes_ask, no_bid, no_ask, last_price, volume, volume_24h, result, can_close_early, cap_count, add_time, update_time) " ++
  "ON target.ticker = source.ticker " ++
  "WHEN MATCHED THEN UPDATE SET " ++
  "event_ticker = source.event_ticker, " ++
  "series_ticker = source.series_ticker, " ++
  "title = source.title, " ++
  "sub_title = source.sub_title, " ++
  "status = source.status, " ++
  "open_time = source.open_time, " ++
  "close_time = source.close_time, " ++
  "expiration_time = source.expiration_time, " ++
  "yes_bid = source.yes_bid, " ++
  "yes_ask = source.yes_ask, " ++
  "no_bid = source.no_bid, " ++
  "no_ask = source.no_ask, " ++
  "last_price = source.last_price, " ++
  "volume = source.volume, " ++
  "volume_24h = source.volume_24h, " ++
  "result = source.result, " ++
  "can_close_early = source.can_close_early, " ++
  "cap_count = source.cap_count, " ++
  "UpdateTime = source.update_time " ++
  "WHEN NOT MATCHED THEN INSERT " ++
  "(ticker, event_ticker, series_ticker, title, sub_title, status, open_time, close_time, expiration_time, yes_bid, yes_ask, no_bid, no_ask, last_price, volume, volume_24h, result, can_close_early, cap_count, AddTime, UpdateTime) " ++
  "VALUES (source.ticker, source.event_ticker, source.series_ticker, source.title, source.sub_title, source.status, source.open_time, source.close_time, source.expiration_time, source.yes_bid, source.yes_ask, source.no_bid, source.no_ask, source.last_price, source.volume, source.volume_24h, source.result, source.can_close_early, source.cap_count, source.add_time, source.update_time);"

/-- Embeds MarketRepository.save_markets: empty input returns 0 before
the method lookup; any non-empty input reaches self._executemany and
raises AttributeError. -/
def MarketRepository.save_markets (now : PyDateTime) (records : List MarketRecord) :
    Except PyError Nat × List StorageOp :=
  let rows := records.map (MarketRepository.build_row now)
  if rows.isEmpty then (Except.ok 0, [])
  else (Except.error (PyError.attributeError "_executemany"), [])

/-- A fixed current timestamp for the repository evaluations. -/
def nowStamp : PyDateTime := { stamp := "2026-10-12T00:00:00" }

/-- A concrete series record for the repository evaluations. -/
def sampleSeriesRecord : SeriesRecord :=
  { ticker := PyVal.str "KXSERIES"
    title := PyVal.str "A series"
    category := PyVal.str "Politics"
    status := PyVal.str "open" }

/-- A concrete event record for the repository evaluations. -/
def sampleEventRecord : EventRecord :=
  { emptyEventRecord with event_ticker := "EV-1" }

/-- A concrete market record for the repository evaluations. -/
def sampleMarketRecord : MarketRecord :=
  { emptyMarketRecord with ticker := "MK-1" }

/-- Claim C1, counterexample: the claim says from_api never raises for
every record type and every input shape including empty mappings, but
SeriesRecord.from_api applied to an empty mapping raises AttributeError,
because it reads item.ticker by direct attribute access. -/
theorem c1_series_from_api_raises_on_empty_mapping :
    SeriesRecord.from_api (PyVal.dict []) =
      Except.error (PyError.attributeError "ticker") := rfl

/-- Claim C1, amended: EventRecord.from_api and MarketRecord.from_api
are total for every input value, with absent fields becoming
null/default (shown on the empty mapping and on wrong-typed fields),
while SeriesRecord.from_api raises AttributeError on every mapping
input because it reads the fields by direct attribute access. -/
theorem c1_from_api_totality_amended :
    ∀ (fromiso : String → Option PyDateTime) (item : PyVal),
      (∃ r, EventRecord.from_api item = Except.ok r) ∧
      (∃ r, MarketRecord.from_api fromiso item = Except.ok r) ∧
      (∀ entries, SeriesRecord.from_api (PyVal.dict entries) =
        Except.error (PyError.attributeError "ticker")) ∧
      EventRecord.from_api (PyVal.dict []) = Except.ok emptyEventRecord ∧
      MarketRecord.from_api fromiso
          (PyVal.dict [("ticker", PyVal.int 7), ("yes_bid", PyVal.str "abc"),
            ("volume", PyVal.list [])]) =
        Except.ok { emptyMarketRecord with ticker := "7" } := by
  intro fromiso item
  exact ⟨⟨_, rfl⟩, ⟨_, rfl⟩, fun entries => rfl, rfl, rfl⟩

/-- Claim C8: the datetime coercion used by MarketRecord agrees with the
spec description for every parser behaviour and every input value: a
datetime is returned as is, a string is parsed after replacing a
trailing Z by the offset +00:00 (null on parse failure), and anything
else, null included, yields null; the coercion is a total function. -/
theorem c8_parse_datetime_matches_spec :
    ∀ (fromiso : String → Option PyDateTime) (value : PyVal),
      _parse_datetime fromiso value = specParseDatetime fromiso value := by
  intro fromiso value
  cases value <;> rfl

/-- Claim C10: whenever the ticker field (markets) or event_ticker field
(events) of the input is absent, null or falsy, from_api stores the
empty string in the key field; the key field of these records is a
string by construction, never null. -/
theorem c10_falsy_key_becomes_empty_string :
    ∀ (fromiso : String → Option PyDateTime) (item itemE : PyVal)
      (m : MarketRecord) (e : EventRecord),
      pyTruthy (_get_value item "ticker") = false →
      pyTruthy (_get_value itemE "event_ticker") = false →
      MarketRecord.from_api fromiso item = Except.ok m →
      EventRecord.from_api itemE = Except.ok e →
      m.ticker = "" ∧ e.event_ticker = "" := by
  intro fromiso item itemE m e h1 h2 h3 h4
  simp only [MarketRecord.from_api, Except.ok.injEq] at h3
  simp only [EventRecord.from_api, Except.ok.injEq] at h4
  subst h3
  subst h4
  constructor
  · show pyStr (pyOr (_get_value item "ticker") (PyVal.str "")) = ""
    simp [pyOr, h1, pyStr]
  · show pyStr (pyOr (_get_value itemE "event_ticker") (PyVal.str "")) = ""
    simp [pyOr, h2, pyStr]

/-- Witness for claim C10: the theorem applied to the empty mapping for
both record types. -/
theorem c10_falsy_key_becomes_empty_string_witness :
    emptyMarketRecord.ticker = "" ∧ emptyEventRecord.event_ticker = "" :=
  c10_falsy_key_becomes_empty_string (fun _ => Option.none)
    (PyVal.dict []) (PyVal.dict []) emptyMarketRecord emptyEventRecord
    (by decide) (by decide) rfl rfl

lemma dropThroughSchemeSep_append (cs rest : List Char)
    (h : cs.all (fun c => !(c == ':')) = true) :
    dropThroughSchemeSep (cs ++ ':' :: '/' :: '/' :: rest) = Option.some rest := by
  induction cs with
  | nil => rfl
  | cons c cs ih =>
      simp only [List.all_cons, Bool.and_eq_true] at h
      have hc : (c == ':') = false := by
        cases hcc : c == ':' with
        | false => rfl
        | true => rw [hcc] at h; simp at h
      simp only [List.cons_append, dropThroughSchemeSep, hc, Bool.false_and,
        Bool.false_eq_true, if_false]
      exact ih h.2

lemma dropWhile_append_of_all (p : Char → Bool) (xs ys : List Char)
    (h : xs.all p = true) :
    (xs ++ ys).dropWhile p = ys.dropWhile p := by
  induction xs with
  | nil => rfl
  | cons x xs ih =>
      simp only [List.all_cons, Bool.and_eq_true] at h
      simp only [List.cons_append, List.dropWhile_cons, h.1, if_true]
      exact ih h.2

lemma takeWhile_append_of_stop (p : Char → Bool) (xs ys : List Char) (y : Char)
    (hxs : xs.all p = true) (hy : p y = false) :
    (xs ++ y :: ys).takeWhile p = xs := by
  induction xs with
  | nil => simp [List.takeWhile_cons, hy]
  | cons x xs ih =>
      simp only [List.all_cons, Bool.and_eq_true] at hxs
      simp only [List.cons_append, List.takeWhile_cons, hxs.1, if_true]
      rw [ih hxs.2]

lemma takeWhile_of_all (p : Char → Bool) (xs : List Char) (h : xs.all p = true) :
    xs.takeWhile p = xs := by
  induction xs with
  | nil => rfl
  | cons x xs ih =>
      simp only [List.all_cons, Bool.and_eq_true] at h
      simp only [List.takeWhile_cons, h.1, if_true]
      rw [ih h.2]

lemma string_mk_data (s : String) : String.mk s.data = s := rfl

/-- The parsed path of a well-formed absolute URL with a query is
exactly its path component: the scheme, the host and the query are all
excluded. -/
lemma urlparsePath_of_decomposition (scheme host path query : String)
    (hs : scheme.data.all (fun c => !(c == ':')) = true)
    (hh : host.data.all (fun c => !(c == '/' || c == '?' || c == '#')) = true)
    (hp0 : path = "" ∨ ∃ p, path = "/" ++ p)
    (hp : path.data.all (fun c => !(c == '?' || c == '#')) = true) :
    urlparsePath (scheme ++ "://" ++ host ++ path ++ "?" ++ query) = path := by
  have hdata : (scheme ++ "://" ++ host ++ path ++ "?" ++ query).data =
      scheme.data ++ ':' :: '/' :: '/' :: (host.data ++ (path.data ++ '?' :: query.data)) := by
    simp [String.data_append]
  rw [urlparsePath, hdata, dropThroughSchemeSep_append _ _ hs]
  dsimp only
  rw [dropWhile_append_of_all _ _ _ hh]
  rcases hp0 with h0 | ⟨p, hpp⟩
  · subst h0
    simp
  · subst hpp
    have hdata2 : ("/" ++ p).data ++ '?' :: query.data = '/' :: (p.data ++ '?' :: query.data) := by
      simp [String.data_append]
    rw [hdata2]
    rw [List.dropWhile_cons_of_neg (by decide)]
    rw [← hdata2, takeWhile_append_of_stop _ _ _ _ hp (by decide)]

/-- Claim C4: for every method and every well-formed absolute URL, the
message handed to the signing primitive is exactly the millisecond
timestamp string, the upper-cased method and the path — with the
scheme, the host and the query string all excluded — concatenated in
that order, and the three emitted headers are the access key id, the
encoded signature, and the decimal millisecond timestamp. -/
theorem c4_auth_headers_exact :
    ∀ (keyId : String) (sign : String → List Nat) (b64 : List Nat → String)
      (nowMs : Nat) (method scheme host path query : String),
      keyId.isEmpty = false →
      scheme.data.all (fun c => !(c == ':')) = true →
      host.data.all (fun c => !(c == '/' || c == '?' || c == '#')) = true →
      (path = "" ∨ ∃ p, path = "/" ++ p) →
      path.data.all (fun c => !(c == '?' || c == '#')) = true →
      _build_auth_headers (Option.some keyId) (Option.some sign) b64 nowMs
          method.toUpper (scheme ++ "://" ++ host ++ path ++ "?" ++ query) =
        Except.ok [("KALSHI-ACCESS-KEY", keyId),
          ("KALSHI-ACCESS-SIGNATURE", b64 (sign (specSignMessage nowMs method path))),
          ("KALSHI-ACCESS-TIMESTAMP", toString nowMs)] := by
  intro keyId sign b64 nowMs method scheme host path query hk hs hh hp0 hp
  have hq : path.data.takeWhile (fun c => !(c == '?')) = path.data := by
    apply takeWhile_of_all
    simp only [List.all_eq_true] at hp ⊢
    intro c hc
    have h2 := hp c hc
    cases h3 : (c == '?') with
    | false => simp [h3]
    | true => rw [h3] at h2; simp at h2
  unfold _build_auth_headers
  dsimp only
  rw [if_neg (by simp [hk])]
  rw [urlparsePath_of_decomposition _ _ _ _ hs hh hp0 hp, hq, string_mk_data]
  rfl

/-- Witness for claim C4: the theorem applied to a concrete key,
signing function, encoder, clock value, method and URL. -/
theorem c4_auth_headers_exact_witness :
    _build_auth_headers (Option.some "key-123")
        (Option.some (fun s => [s.length]))
        (fun l => String.intercalate "," (l.map toString)) 1700000000000
        ("get".toUpper)
        ("https" ++ "://" ++ "api.elections.kalshi.com" ++ "/trade-api/v2/markets" ++
          "?" ++ "limit=100") =
      Except.ok [("KALSHI-ACCESS-KEY", "key-123"),
        ("KALSHI-ACCESS-SIGNATURE",
          String.intercalate ","
            ((([(specSignMessage 1700000000000 "get" "/trade-api/v2/markets").length]).map toString))),
        ("KALSHI-ACCESS-TIMESTAMP", toString 1700000000000)] :=
  c4_auth_headers_exact "key-123" (fun s => [s.length])
    (fun l => String.intercalate "," (l.map toString)) 1700000000000
    "get" "https" "api.elections.kalshi.com" "/trade-api/v2/markets" "limit=100"
    (by decide) (by decide) (by decide)
    (Or.inr ⟨"trade-api/v2/markets", rfl⟩) (by decide)

/-- Claim C2, counterexample: the claim quantifies over every operation
name, but for a name the SDK client does not expose, call raises the
unknown-operation AttributeError rather than AuthenticationConfigError,
even though authentication was requested while disabled. -/
theorem c2_unknown_operation_not_config_error :
    KalshiAPIClient.call standardClientModel false "frobnicate" true [] =
      (Except.error (PyError.attributeError "frobnicate"), []) ∧
    PyError.attributeError "frobnicate" ≠ PyError.authenticationConfigError := by
  constructor
  · rfl
  · intro h
    cases h

/-- Claim C2, amended: with authentication disabled, an authenticated
call on any operation name the SDK client exposes raises
AuthenticationConfigError with an empty invocation trace; an unknown
operation name raises AttributeError, likewise with no invocation; and
an authenticated http_request raises AuthenticationConfigError with no
transport invocation. -/
theorem c2_no_credentials_no_network_amended :
    ∀ (m : KalshiClientModel) (operation : String) (params : List (String × PyVal))
      (transport : String → String → List (String × String) → TransportOutcome)
      (apiKeyId : Option String) (privateKey : Option (String → List Nat))
      (b64 : List Nat → String) (host : String) (nowMs : Nat) (method url : String)
      (headers : List (String × String)),
      (m.opNames.contains operation = true →
        KalshiAPIClient.call m false operation true params =
          (Except.error PyError.authenticationConfigError, [])) ∧
      (m.opNames.contains operation = false →
        KalshiAPIClient.call m false operation true params =
          (Except.error (PyError.attributeError operation), [])) ∧
      http_request transport false apiKeyId privateKey b64 host nowMs method url true
          headers =
        (Except.error PyError.authenticationConfigError, []) := by
  intro m operation params transport apiKeyId privateKey b64 host nowMs method url headers
  refine ⟨fun hres => ?_, fun hres => ?_, rfl⟩
  · unfold KalshiAPIClient.call
    rw [if_pos hres]
    rfl
  · unfold KalshiAPIClient.call
    rw [if_neg (by rw [hres]; intro h; cases h)]

/-- Witness for claim C2 (amended): the theorem applied to the concrete
SDK surface at the operation get_series and a concrete transport. -/
theorem c2_no_credentials_no_network_amended_witness :
    KalshiAPIClient.call standardClientModel false "get_series" true [] =
      (Except.error PyError.authenticationConfigError, []) ∧
    http_request (fun _ _ _ => TransportOutcome.response 200 PyVal.none) false
        Option.none Option.none (fun _ => "") "https://api.elections.kalshi.com/trade-api/v2"
        1700000000000 "get" "/markets" true [] =
      (Except.error PyError.authenticationConfigError, []) := by
  have h := c2_no_credentials_no_network_amended standardClientModel "get_series" []
    (fun _ _ _ => TransportOutcome.response 200 PyVal.none) Option.none Option.none
    (fun _ => "") "https://api.elections.kalshi.com/trade-api/v2" 1700000000000
    "get" "/markets" []
  exact ⟨h.1 (by decide), h.2.2⟩

/-- Claim C9: after a construction that completes, authEnabled is true
exactly when both the api key id and the private key material are
present and non-empty; the state is an immutable value, so the flag
never changes after construction. -/
theorem c9_auth_enabled_iff_both_credentials :
    ∀ (apiKeyId keyMaterial : Option String)
      (loadPem : String → Except PyError (String → List Nat)) (st : KalshiClientState),
      KalshiAPIClient.mk_client apiKeyId keyMaterial loadPem = Except.ok st →
      (st.authEnabled = true ↔
        (optStrTruthy apiKeyId = true ∧ optStrTruthy keyMaterial = true)) := by
  intro a k lp st h
  unfold KalshiAPIClient.mk_client at h
  by_cases hcond : (optStrTruthy a && optStrTruthy k) = true
  · rw [if_pos hcond] at h
    rcases hl : lp (k.getD "") with e | fn
    · rw [hl] at h
      cases h
    · rw [hl] at h
      rw [Except.ok.injEq] at h
      subst h
      simp only [Bool.and_eq_true] at hcond
      exact iff_of_true rfl hcond
  · rw [if_neg hcond] at h
    rw [Except.ok.injEq] at h
    subst h
    constructor
    · intro hft
      cases hft
    · intro hboth
      exact absurd (by rw [hboth.1, hboth.2]; rfl) hcond

/-- Witness for claim C9: the theorem applied to a concrete
construction with both credentials present. -/
theorem c9_auth_enabled_iff_both_credentials_witness :
    c9WitnessState.authEnabled = true ↔
      (optStrTruthy (Option.some "key-123") = true ∧
        optStrTruthy (Option.some "PEM KEY MATERIAL") = true) :=
  c9_auth_enabled_iff_both_credentials (Option.some "key-123")
    (Option.some "PEM KEY MATERIAL")
    (fun _ => Except.ok (fun s => [s.length])) c9WitnessState rfl

lemma call_enabled_resolvable (m : KalshiClientModel) (op : String)
    (params : List (String × PyVal)) (h : m.opNames.contains op = true) :
    KalshiAPIClient.call m true op true params =
      (match m.endpoint op params with
       | EndpointOutcome.ok r => (Except.ok r, [(op, params)])
       | EndpointOutcome.apiException reason =>
           (Except.error (PyError.kalshiAPIError reason), [(op, params)])
       | EndpointOutcome.raise e => (Except.error e, [(op, params)])) := by
  unfold KalshiAPIClient.call
  rw [if_pos h, if_neg (by decide)]

lemma mapM_event_from_api (xs : List PyVal) :
    ∃ rs, xs.mapM EventRecord.from_api = Except.ok rs := by
  induction xs with
  | nil => exact ⟨[], rfl⟩
  | cons x xs ih =>
      obtain ⟨rs, hrs⟩ := ih
      cases hfa : EventRecord.from_api x with
      | error e => exact absurd hfa (by rw [EventRecord.from_api]; intro h; cases h)
      | ok r => exact ⟨r :: rs, by rw [List.mapM_cons, hfa, hrs]; rfl⟩

lemma mapM_market_from_api (fromiso : String → Option PyDateTime) (xs : List PyVal) :
    ∃ rs, xs.mapM (MarketRecord.from_api fromiso) = Except.ok rs := by
  induction xs with
  | nil => exact ⟨[], rfl⟩
  | cons x xs ih =>
      obtain ⟨rs, hrs⟩ := ih
      cases hfa : MarketRecord.from_api fromiso x with
      | error e => exact absurd hfa (by rw [MarketRecord.from_api]; intro h; cases h)
      | ok r => exact ⟨r :: rs, by rw [List.mapM_cons, hfa, hrs]; rfl⟩

lemma pyIter_error_typeError (v : PyVal) (e : PyError)
    (h : pyIter v = Except.error e) :
    e = PyError.typeError "object is not iterable" := by
  cases v <;> simp [pyIter] at h <;> exact h.symm

lemma eventRecordsResult_ne_validation (ev mi cu : PyVal) :
    eventRecordsResult ev mi cu ≠ Except.error PyError.validationError := by
  intro h
  unfold eventRecordsResult at h
  cases hi : pyIter ev with
  | error e =>
      rw [hi] at h
      dsimp only at h
      have he := pyIter_error_typeError ev e hi
      rw [Except.error.injEq] at h
      rw [he] at h
      cases h
  | ok xs =>
      rw [hi] at h
      dsimp only at h
      obtain ⟨rs, hrs⟩ := mapM_event_from_api xs
      rw [hrs] at h
      cases h

lemma marketRecordsResult_ne_validation (fromiso : String → Option PyDateTime)
    (mk cu : PyVal) :
    marketRecordsResult fromiso mk cu ≠ Except.error PyError.validationError := by
  intro h
  unfold marketRecordsResult at h
  cases hi : pyIter mk with
  | error e =>
      rw [hi] at h
      dsimp only at h
      have he := pyIter_error_typeError mk e hi
      rw [Except.error.injEq] at h
      rw [he] at h
      cases h
  | ok xs =>
      rw [hi] at h
      dsimp only at h
      obtain ⟨rs, hrs⟩ := mapM_market_from_api fromiso xs
      rw [hrs] at h
      cases h

/-- Claim C5: whenever the typed operation raises a schema-validation
error, each service invokes the raw variant with exactly the same
filter parameters and returns the value derived from that raw outcome;
the validation error itself is never the returned error (provided the
raw call does not itself raise one), and when raw JSON decoding fails
the result is an empty record list with empty milestones (events) and a
None cursor. -/
theorem c5_validation_error_falls_back_to_raw :
    ∀ (m : KalshiClientModel) (jsonLoads : String → Option PyVal)
      (fromiso : String → Option PyDateTime) (f : EventFilters) (g : MarketFilters),
      m.opNames.contains "get_events" = true →
      m.opNames.contains "get_events_without_preload_content" = true →
      m.opNames.contains "get_markets" = true →
      m.opNames.contains "get_markets_without_preload_content" = true →
      m.endpoint "get_events" (EventsService.build_params f) =
        EndpointOutcome.raise PyError.validationError →
      m.endpoint "get_markets" (MarketsService.build_params g) =
        EndpointOutcome.raise PyError.validationError →
      EventsService.list_event_records m true jsonLoads f =
        (EventsService.fallback_value m jsonLoads (EventsService.build_params f),
          [("get_events", EventsService.build_params f),
            ("get_events_without_preload_content", EventsService.build_params f)]) ∧
      MarketsService.list_market_records fromiso m true jsonLoads g =
        (MarketsService.fallback_value fromiso m jsonLoads (MarketsService.build_params g),
          [("get_markets", MarketsService.build_params g),
            ("get_markets_without_preload_content", MarketsService.build_params g)]) ∧
      ((m.endpoint "get_events_without_preload_content" (EventsService.build_params f) ≠
          EndpointOutcome.raise PyError.validationError) →
        (EventsService.list_event_records m true jsonLoads f).1 ≠
          Except.error PyError.validationError) ∧
      (∀ resp, m.endpoint "get_events_without_preload_content" (EventsService.build_params f) =
          EndpointOutcome.ok resp →
        jsonLoads (rawResponseText resp) = Option.none →
        (EventsService.list_event_records m true jsonLoads f).1 =
          Except.ok ([], PyVal.list [], PyVal.none)) ∧
      (∀ resp, m.endpoint "get_markets_without_preload_content" (MarketsService.build_params g) =
          EndpointOutcome.ok resp →
        jsonLoads (rawResponseText resp) = Option.none →
        (MarketsService.list_market_records fromiso m true jsonLoads g).1 =
          Except.ok ([], PyVal.none)) := by
  intro m jsonLoads fromiso f g h1 h2 h3 h4 hve hvm
  have hmainE : EventsService.list_event_records m true jsonLoads f =
      (EventsService.fallback_value m jsonLoads (EventsService.build_params f),
        [("get_events", EventsService.build_params f),
          ("get_events_without_preload_content", EventsService.build_params f)]) := by
    unfold EventsService.list_event_records
    dsimp only
    rw [call_enabled_resolvable m _ _ h1, hve]
    dsimp only
    rw [if_pos rfl]
    unfold EventsService.fetch_raw
    rw [call_enabled_resolvable m _ _ h2]
    unfold EventsService.fallback_value
    cases hre : m.endpoint "get_events_without_preload_content" (EventsService.build_params f) with
    | ok resp =>
        dsimp only
        cases hjl : jsonLoads (rawResponseText resp) with
        | none => rfl
        | some payload => rfl
    | apiException reason => rfl
    | raise e => rfl
  have hmainM : MarketsService.list_market_records fromiso m true jsonLoads g =
      (MarketsService.fallback_value fromiso m jsonLoads (MarketsService.build_params g),
        [("get_markets", MarketsService.build_params g),
          ("get_markets_without_preload_content", MarketsService.build_params g)]) := by
    unfold MarketsService.list_market_records
    dsimp only
    rw [call_enabled_resolvable m _ _ h3, hvm]
    dsimp only
    rw [if_pos rfl]
    unfold MarketsService.fetch_raw
    rw [call_enabled_resolvable m _ _ h4]
    unfold MarketsService.fallback_value
    cases hre : m.endpoint "get_markets_without_preload_content" (MarketsService.build_params g) with
    | ok resp =>
        dsimp only
        cases hjl : jsonLoads (rawResponseText resp) with
        | none => rfl
        | some payload => rfl
    | apiException reason => rfl
    | raise e => rfl
  refine ⟨hmainE, hmainM, ?_, ?_, ?_⟩
  · intro hne
    rw [hmainE]
    dsimp only
    unfold EventsService.fallback_value
    cases hre : m.endpoint "get_events_without_preload_content" (EventsService.build_params f) with
    | ok resp => exact eventRecordsResult_ne_validation _ _ _
    | apiException reason => intro hcon; cases hcon
    | raise e =>
        intro hcon
        rw [Except.error.injEq] at hcon
        rw [hcon] at hre
        exact hne hre
  · intro resp hresp hjl
    rw [hmainE]
    dsimp only
    unfold EventsService.fallback_value
    rw [hresp]
    dsimp only
    rw [hjl]
    rfl
  · intro resp hresp hjl
    rw [hmainM]
    dsimp only
    unfold MarketsService.fallback_value
    rw [hresp]
    dsimp only
    rw [hjl]
    rfl

/-- Witness for claim C5: the theorem applied to the concrete model
with a decoder that always fails, hitting both the trace equality and
the empty-result conclusion. -/
theorem c5_validation_error_falls_back_to_raw_witness :
    EventsService.list_event_records c5ClientModel true (fun _ => Option.none) {} =
      (EventsService.fallback_value c5ClientModel (fun _ => Option.none)
          (EventsService.build_params {}),
        [("get_events", EventsService.build_params {}),
          ("get_events_without_preload_content", EventsService.build_params {})]) ∧
    (EventsService.list_event_records c5ClientModel true (fun _ => Option.none) {}).1 =
      Except.ok ([], PyVal.list [], PyVal.none) ∧
    (MarketsService.list_market_records (fun _ => Option.none) c5ClientModel true
        (fun _ => Option.none) {}).1 =
      Except.ok ([], PyVal.none) :=
  have h := c5_validation_error_falls_back_to_raw c5ClientModel (fun _ => Option.none)
    (fun _ => Option.none) {} {} (by decide) (by decide) (by decide) (by decide) rfl rfl
  ⟨h.1, h.2.2.2.1 (PyVal.obj [("data", PyVal.bytes "not json")]) rfl rfl,
    h.2.2.2.2 (PyVal.obj [("data", PyVal.bytes "not json")]) rfl rfl⟩

lemma executemany_method_missing :
    repositoryDefinedMethods.contains "_executemany" = false := by decide

/-- Claim C6: saving an empty sequence returns 0 with no storage
activity through save_events, save_markets and the base save_many, but
SeriesRepository.save_series raises AttributeError even on the empty
sequence, because its body always evaluates the undefined attribute
self._executemany — the code contradicts the documented empty-input
contract that its own base class implements. -/
theorem c6_empty_input_save_behaviour :
    EventRepository.save_events nowStamp [] = (Except.ok 0, []) ∧
    MarketRepository.save_markets nowStamp [] = (Except.ok 0, []) ∧
    BaseSQLRepository.save_many (SeriesRepository.insert_statement "dbo.KS_Series")
        true [] = (Except.ok 0, []) ∧
    repositoryDefinedMethods.contains "_executemany" = false ∧
    SeriesRepository.save_series nowStamp [] =
      (Except.error (PyError.attributeError "_executemany"), []) :=
  ⟨rfl, rfl, rfl, executemany_method_missing, rfl⟩

/-- Claim C7: on non-empty input every repository save raises
AttributeError for the undefined self._executemany instead of writing
the batch and returning its size; the base save_many the classes were
meant to reach would have submitted all rows as one batched merge
statement and returned the row count. -/
theorem c7_nonempty_save_raises_attribute_error :
    SeriesRepository.save_series nowStamp [sampleSeriesRecord] =
      (Except.error (PyError.attributeError "_executemany"), []) ∧
    EventRepository.save_events nowStamp [sampleEventRecord] =
      (Except.error (PyError.attributeError "_executemany"), []) ∧
    MarketRepository.save_markets nowStamp [sampleMarketRecord] =
      (Except.error (PyError.attributeError "_executemany"), []) ∧
    BaseSQLRepository.save_many (SeriesRepository.insert_statement "dbo.KS_Series")
        true [SeriesRepository.build_row nowStamp sampleSeriesRecord] =
      (Except.ok 1,
        [StorageOp.executemany (SeriesRepository.insert_statement "dbo.KS_Series")
          [SeriesRepository.build_row nowStamp sampleSeriesRecord],
         StorageOp.commit]) ∧
    BaseSQLRepository.save_many (EventRepository.insert_statement "dbo.KS_Events")
        true [EventRepository.build_row nowStamp sampleEventRecord] =
      (Except.ok 1,
        [StorageOp.executemany (EventRepository.insert_statement "dbo.KS_Events")
          [EventRepository.build_row nowStamp sampleEventRecord],
         StorageOp.commit]) :=
  ⟨rfl, rfl, rfl, rfl, rfl⟩

